import Mathlib

/-!
Verification of the zerfoo/float16 Go package against its specification.

A half-precision value (Go type `Float16`, a `uint16`) is embedded as a `Nat`
that callers keep below 2^16.  A `float32` is embedded as its IEEE 754 bit
pattern, a `Nat` below 2^32.  Go bit-mask operations on these fixed-width
integers are rendered arithmetically: for a 16-bit value `f`,
`f & 0x7FFF = f % 32768`, `(f & 0x8000) >> 15 = f / 32768 % 2`,
`(f & 0x7C00) >> 10 = f / 1024 % 32`, `f & 0x03FF = f % 1024`, and
`f ^ 0x8000 = (f + 32768) % 65536`; shifts become multiplication or division
by powers of two, and Go integer conversions become explicit `% 2^w`.
Fallible Go functions returning `(Float16, error)` become
`Nat × Option ErrorCode`.
-/

namespace Float16V

/-! ### Constants from types.go -/

def PositiveZero : Nat := 0x0000
def NegativeZero : Nat := 0x8000
def PositiveInfinity : Nat := 0x7C00
def NegativeInfinity : Nat := 0xFC00
def QuietNaN : Nat := 0x7E00
def NegativeQNaN : Nat := 0xFE00

/-- ErrorCode from types.go. -/
inductive ErrorCode where
  | overflow | underflow | invalidOperation | divisionByZero | inexact | nan | infinity
  deriving DecidableEq, Repr

/-- ConversionMode from types.go. -/
inductive ConversionMode where
  | ieee | strict | fast | exact
  deriving DecidableEq, Repr

/-- RoundingMode from types.go. -/
inductive RoundingMode where
  | nearestEven | nearestAway | towardZero | towardPositive | towardNegative
  deriving DecidableEq, Repr

/-- ArithmeticMode from the arithmetic source file. -/
inductive ArithmeticMode where
  | ieee | fast | exact
  deriving DecidableEq, Repr

/-! ### Predicates and bit utilities from types.go -/

/-- Models `Float16.IsZero`: `(f & 0x7FFF) == 0`. -/
def isZero (f : Nat) : Bool := f % 32768 == 0

/-- Models `Float16.IsNaN`: exponent field 31 and nonzero mantissa field. -/
def isNaN (f : Nat) : Bool := (f / 1024 % 32 == 31) && (f % 1024 != 0)

/-- Models `Float16.IsInf(sign)`: `(f & 0x7FFF) == 0x7C00` filtered by the
requested sign (`sign : Int` exactly as the Go parameter). -/
def isInf (f : Nat) (sign : Int) : Bool :=
  if f % 32768 != 0x7C00 then false
  else if sign == 0 then true
  else (sign > 0) == (f / 32768 % 2 == 0)

/-- Models `Float16.IsFinite`: exponent field is not 31. -/
def isFinite (f : Nat) : Bool := f / 1024 % 32 != 31

/-- Models `Float16.IsNormal`: exponent field is neither 0 nor 31. -/
def isNormal (f : Nat) : Bool := (f / 1024 % 32 != 0) && (f / 1024 % 32 != 31)

/-- Models `Float16.IsSubnormal`: exponent field 0 and nonzero mantissa field. -/
def isSubnormal (f : Nat) : Bool := (f / 1024 % 32 == 0) && (f % 1024 != 0)

/-- Models `Float16.Signbit`: `(f & SignMask) != 0`, i.e. bit 15 is set. -/
def signbit (f : Nat) : Bool := f / 32768 % 2 == 1

/-- Models `Float16.Abs`: `f & 0x7FFF`, clearing the sign bit. -/
def abs16 (f : Nat) : Nat := f % 32768

/-- Models `Float16.Neg`: `f ^ SignMask`; for a 16-bit value, xor with 0x8000
is addition of 0x8000 modulo 2^16. -/
def neg16 (f : Nat) : Nat := (f + 32768) % 65536

/-- FloatClass from types.go. -/
inductive FloatClass where
  | signalingNaN | quietNaN
  | negativeInfinity | negativeNormal | negativeSubnormal | negativeZero
  | positiveZero | positiveSubnormal | positiveNormal | positiveInfinity
  deriving DecidableEq, Repr

/-- Models `Float16.Class` from types.go; `(f & 0x0200) == 0` is rendered as
`f / 512 % 2 == 0`. -/
def class16 (f : Nat) : FloatClass :=
  if isNaN f then
    if f / 512 % 2 == 0 then .signalingNaN else .quietNaN
  else
    let sign := signbit f
    if isInf f 0 then
      if sign then .negativeInfinity else .positiveInfinity
    else if isZero f then
      if sign then .negativeZero else .positiveZero
    else if isSubnormal f then
      if sign then .negativeSubnormal else .positiveSubnormal
    else
      if sign then .negativeNormal else .positiveNormal

/-- Models `extractComponents`: `(bits & 0x8000) >> 15`, `(bits & 0x7C00) >> 10`
and `bits & 0x03FF`. -/
def extractComponents (f : Nat) : Nat × Nat × Nat :=
  (f / 32768 % 2, f / 1024 % 32, f % 1024)

/-- Models `packComponents`: `(sign << 15) | (exp << 10) | (mant & 0x3FF)`.
Every caller passes `sign < 2` and `exp < 32`, so the fields are disjoint and
the bit-ors are sums; the `% 2` and `% 32` make the rendering total. -/
def packComponents (sign exp mant : Nat) : Nat :=
  sign % 2 * 32768 + exp % 32 * 1024 + mant % 1024

/-- Number of binary digits of `n` (`bitLen 0 = 0`), computed with
structural recursion on a fuel argument so that it reduces by evaluation;
`bitLen n = Nat.log2 n + 1` for `n > 0`. -/
def bitLenAux : Nat → Nat → Nat
  | 0, _ => 0
  | fuel + 1, n => if n == 0 then 0 else bitLenAux fuel (n / 2) + 1

/-- Bit length of a natural number, as used by `bits.LeadingZeros16` and
`bits.Len32`. -/
def bitLen (n : Nat) : Nat := bitLenAux n n

/-- Models `bits.LeadingZeros16`: 16 minus the bit length of a 16-bit value. -/
def leadingZeros16 (x : Nat) : Int :=
  if x == 0 then 16 else 16 - (bitLen x : Int)

/-- Models `leadingZeros10` from types.go:
`bits.LeadingZeros16(x<<6) - 6` for nonzero `x`, and 10 for zero.
The uint16 shift `x<<6` wraps modulo 2^16. -/
def leadingZeros10 (x : Nat) : Int :=
  if x == 0 then 10
  else leadingZeros16 (x * 64 % 65536) - 6

/-! ### The widening converter: `ToFloat32` from convert.go

A `float32` is represented by its bit pattern (`Nat` below 2^32):
bit 31 sign, bits 30-23 exponent (bias 127), bits 22-0 mantissa.
`math.Float32frombits`/`math.Float32bits` are the identity on this
representation. -/

/-- Tests whether a float32 bit pattern is an IEEE infinity
(`math.IsInf(f,0)`): exponent field 255 and zero mantissa. -/
def f32IsInf (bits : Nat) : Bool := (bits / 8388608 % 256 == 255) && (bits % 8388608 == 0)

/-- Tests whether a float32 bit pattern is a NaN (`math.IsNaN`):
exponent field 255 and nonzero mantissa. -/
def f32IsNaN (bits : Nat) : Bool := (bits / 8388608 % 256 == 255) && (bits % 8388608 != 0)

/-- Sign bit of a float32 bit pattern (`math.Signbit`). -/
def f32Signbit (bits : Nat) : Bool := bits / 2147483648 % 2 == 1

/-- Models `Float16.ToFloat32` from convert.go, returning the float32 bit
pattern.  The NaN branch computes `sign | 0x7FC00000 | (payload << 13)`;
since a payload with bit 9 set overlaps bit 22 of 0x7FC00000, the bit-or
keeps bit 22 set exactly once. -/
def toFloat32bits (f : Nat) : Nat :=
  if isZero f then
    if signbit f then 0x80000000 else 0
  else if isNaN f then
    let sign := if signbit f then 0x80000000 else 0
    let payload := f % 1024
    -- 0x7FC00000 | (payload << 13): bit 22 of the quiet mask may coincide
    -- with payload bit 9, so it is added only when not already present.
    sign + 0x7F800000 + (if payload / 512 % 2 == 1 then payload * 8192 else 0x400000 + payload * 8192)
  else if isInf f 0 then
    if signbit f then 0xFF800000 else 0x7F800000
  else
    let sign := f / 32768 % 2
    let exp16 := f / 1024 % 32
    let mant16 := f % 1024
    if exp16 == 0 then
      -- Subnormal half value.
      if mant16 == 0 then
        if sign != 0 then 0x80000000 else 0
      else
        let leadingZeros := leadingZeros10 mant16
        if leadingZeros < 0 || leadingZeros > 9 then
          -- Defensive branch in the source: return a signed zero.
          if sign != 0 then 0x80000000 else 0
        else
          let shift := leadingZeros + 1
          -- mant16 <<= shift (uint16, wraps mod 2^16), then mant16 &= 0x3FF.
          let mant16s := mant16 * 2 ^ shift.toNat % 65536 % 1024
          -- exp32 := Float32ExponentBias - 15 + shift
          let exp32 : Int := 127 - 15 + shift
          if exp32 ≤ 0 || exp32 ≥ 255 then
            if exp32 ≥ 255 then
              if sign != 0 then 0xFF800000 else 0x7F800000
            else
              if sign != 0 then 0x80000000 else 0
          else
            sign * 2147483648 + exp32.toNat * 8388608 + mant16s * 8192
    else
      -- Normal half value: exp32 = int32(exp16) - 15 + 127, mant32 = mant16 << 13.
      let exp32 : Int := (exp16 : Int) - 15 + 127
      sign * 2147483648 + exp32.toNat * 8388608 + mant16 * 8192

/-! ### The rounding decision procedure: `shouldRound` from convert.go -/

/-- Models `shouldRound(mantissa, shift, mode)`.  The Go `shift` parameter is
an `int`; both call sites pass a nonnegative value, and the Go guard
`shift <= 0` is rendered as `shift == 0`. -/
def shouldRound (mantissa : Nat) (shift : Nat) (mode : RoundingMode) : Bool :=
  if shift == 0 then false
  else
    let discardedBits := mantissa % 2 ^ shift
    let guardBit := mantissa / 2 ^ (shift - 1) % 2
    match mode with
    | .nearestEven =>
      if guardBit == 0 then false
      else
        let remainingBits := discardedBits % 2 ^ (shift - 1)
        if remainingBits != 0 then true
        else mantissa / 2 ^ shift % 2 == 1
    | .nearestAway => guardBit == 1
    | .towardZero => false
    | .towardPositive => discardedBits != 0
    | .towardNegative => false

/-! ### The narrowing converter: `ToFloat16WithMode` from convert.go -/

/-- Sets bit 23 of a value below 2^24, modelling `m | 0x800000`. -/
def orBit23 (m : Nat) : Nat := if m / 8388608 % 2 == 1 then m else m + 8388608

/-- Models `ToFloat16WithMode(f32, convMode, roundMode)` from convert.go on the
float32 bit pattern `bits`; returns the result value and an optional error
code in place of the Go `(Float16, error)` pair.

Notes kept from the source: inside the underflow branch the implicit leading
one is or-ed into the mantissa twice (lines 201 and 251), which is rendered
with the idempotent `orBit23`; the store `exp16 = 1` made when rounding
carries past 0x3FF is dead because `exp16 = 0` is reassigned unconditionally
afterwards, so only the mantissa update of that branch is kept; the Go
expression `uint32(1) << s` for `s ≥ 32` yields 0, so the sticky mask
`(uint32(1) << s) - 1` wraps to 0xFFFFFFFF, rendered as
`(2 ^ s % 2 ^ 32 + 2 ^ 32 - 1) % 2 ^ 32`. -/
def toFloat16WithMode (bits : Nat) (convMode : ConversionMode) (roundMode : RoundingMode) :
    Nat × Option ErrorCode :=
  -- if f32 == 0.0 (value comparison: true exactly for ±0 bit patterns)
  if bits % 2147483648 == 0 then
    if bits / 2147483648 % 2 == 1 then (NegativeZero, none) else (PositiveZero, none)
  else if f32IsInf bits then
    if convMode == .strict then (0, some .infinity)
    else if bits / 2147483648 % 2 == 0 then (PositiveInfinity, none)
    else (NegativeInfinity, none)
  else if f32IsNaN bits then
    if convMode == .strict then (0, some .nan)
    else if f32Signbit bits then (NegativeQNaN, none)
    else (QuietNaN, none)
  else
    let sign32 := bits / 2147483648
    let exp32 : Int := bits / 8388608 % 256
    let mant32 := bits % 8388608
    -- Subnormal float32 input with zero mantissa would be a zero (dead:
    -- zeros were already handled above).
    if exp32 == 0 && mant32 == 0 then
      if sign32 != 0 then (NegativeZero, none) else (PositiveZero, none)
    else
      let exp16 : Int := exp32 - 127 + 15
      if exp16 ≥ 31 then
        if convMode == .strict || convMode == .exact then (0, some .overflow)
        else if sign32 != 0 then (NegativeInfinity, none)
        else (PositiveInfinity, none)
      else if exp16 ≤ 0 then
        let shift : Int := 1 - exp16
        let mant32a := if exp32 != 0 then orBit23 mant32 else mant32
        -- totalShift := (127 - 15 + 1 - 1) + shift
        let totalShift : Int := 127 - 15 + 1 - 1 + shift
        if totalShift ≥ 24 then
          if convMode == .strict || convMode == .exact then (0, some .underflow)
          else if sign32 != 0 then (NegativeZero, none)
          else (PositiveZero, none)
        else
          let extraBits : Int := if totalShift > 22 then 0 else if totalShift > 21 then 1 else 2
          let mant32b := if mant32a != 0 then (if exp32 != 0 then orBit23 mant32a else mant32a) else mant32a
          let mant16a := if mant32a != 0 then mant32b / 2 ^ (totalShift - extraBits).toNat % 65536 else 0
          let roundBit := if totalShift > extraBits then mant32b / 2 ^ (totalShift - extraBits - 1).toNat % 2 else 0
          let stickyBit :=
            if totalShift > extraBits + 1 then
              let stickyMask := (2 ^ (totalShift - extraBits - 1).toNat % 4294967296 + 4294967296 - 1) % 4294967296
              if mant32b % (stickyMask + 1) != 0 then 1 else 0
            else 0
          let mant16b :=
            if shouldRound mant16a (if roundBit == 1 || stickyBit == 1 then 1 else 0) roundMode then
              let m := (mant16a + 1) % 65536
              if m > 0x3FF then 0x200 else m
            else mant16a
          -- exp16 = 0 is reassigned here in the source.
          if mant16b ≥ 0x400 then
            let m := mant16b / 2
            if m < 0x400 then (packComponents sign32 1 m, none)
            else (packComponents sign32 2 (m / 2), none)
          else (packComponents sign32 0 mant16b, none)
      else
        -- Normal number conversion: mant16 := mant32 >> 13.
        let mant16a := mant32 / 8192
        if shouldRound mant32 13 roundMode then
          let m := mant16a + 1
          if m ≥ 1024 then
            let e := exp16 + 1
            if e ≥ 31 then
              if convMode == .strict || convMode == .exact then (0, some .overflow)
              else if sign32 != 0 then (NegativeInfinity, none)
              else (PositiveInfinity, none)
            else (packComponents sign32 (e % 65536).toNat 0, none)
          else (packComponents sign32 (exp16 % 65536).toNat m, none)
        else (packComponents sign32 (exp16 % 65536).toNat mant16a, none)

/-! ### Exact model of Go float32 arithmetic

The Go arithmetic engine computes on `float32` values obtained from half
values.  Go `float32` addition, multiplication and division are the IEEE 754
binary32 operations with round-to-nearest-even.  They are modelled exactly on
bit patterns: a finite operand is decoded to an integer significand and a
power-of-two exponent, the exact result is computed with integer arithmetic
(division keeps 64 extra quotient bits plus a sticky remainder flag), and the
result is rounded back to a binary32 bit pattern. -/

/-- Tests whether a float32 bit pattern is a zero. -/
def f32IsZero (bits : Nat) : Bool := bits % 2147483648 == 0

/-- Decodes a finite float32 bit pattern into `(sign, significand, exponent)`
with value `(-1)^sign * significand * 2^exponent`. -/
def f32Decode (bits : Nat) : Nat × Nat × Int :=
  let sign := bits / 2147483648 % 2
  let exp := bits / 8388608 % 256
  let mant := bits % 8388608
  if exp == 0 then (sign, mant, -149) else (sign, mant + 8388608, (exp : Int) - 150)

/-- Rounds the exact value `(-1)^sign * (m + σ) * 2^e` to a binary32 bit
pattern with round-to-nearest-even, where `σ = 0` if `sticky = false` and
`0 < σ < 1` otherwise.  Callers only pass `sticky = true` when the rounding
position lies strictly above the sticky granularity. -/
def f32Round (sign : Nat) (m : Nat) (e : Int) (sticky : Bool) : Nat :=
  if m == 0 then sign * 2147483648
  else
    let L : Nat := bitLen m - 1
    let E : Int := e + L
    let p : Int := if E ≥ -126 then E - 23 else -149
    let s : Int := p - e
    if s ≤ 0 then
      let M := m * 2 ^ (-s).toNat
      if E ≥ 128 then sign * 2147483648 + 0x7F800000
      else if E ≥ -126 then sign * 2147483648 + (E + 127).toNat * 8388608 + (M - 8388608)
      else sign * 2147483648 + M
    else
      let keep := m / 2 ^ s.toNat
      let guard := m / 2 ^ (s.toNat - 1) % 2
      let rest := (m % 2 ^ (s.toNat - 1) != 0) || sticky
      let K := if guard == 1 && (rest || keep % 2 == 1) then keep + 1 else keep
      if E ≥ -126 then
        let K2 : Nat := if K == 16777216 then 8388608 else K
        let E2 : Int := if K == 16777216 then E + 1 else E
        if E2 ≥ 128 then sign * 2147483648 + 0x7F800000
        else sign * 2147483648 + (E2 + 127).toNat * 8388608 + (K2 - 8388608)
      else sign * 2147483648 + K

/-- Result sign bit of a two-operand float32 operation: the xor of the
operand signs. -/
def f32XorSign (a b : Nat) : Nat := if f32Signbit a != f32Signbit b then 1 else 0

/-- Go float32 multiplication `a * b` on bit patterns. -/
def f32Mul (a b : Nat) : Nat :=
  if f32IsNaN a || f32IsNaN b then 0x7FC00000
  else if f32IsInf a || f32IsInf b then
    if f32IsZero a || f32IsZero b then 0x7FC00000
    else f32XorSign a b * 2147483648 + 0x7F800000
  else if f32IsZero a || f32IsZero b then f32XorSign a b * 2147483648
  else
    let (_, ma, ea) := f32Decode a
    let (_, mb, eb) := f32Decode b
    f32Round (f32XorSign a b) (ma * mb) (ea + eb) false

/-- Go float32 division `a / b` on bit patterns. -/
def f32Div (a b : Nat) : Nat :=
  if f32IsNaN a || f32IsNaN b then 0x7FC00000
  else if f32IsInf a && f32IsInf b then 0x7FC00000
  else if f32IsZero a && f32IsZero b then 0x7FC00000
  else if f32IsInf a then f32XorSign a b * 2147483648 + 0x7F800000
  else if f32IsInf b then f32XorSign a b * 2147483648
  else if f32IsZero b then f32XorSign a b * 2147483648 + 0x7F800000
  else if f32IsZero a then f32XorSign a b * 2147483648
  else
    let (_, ma, ea) := f32Decode a
    let (_, mb, eb) := f32Decode b
    let q := ma * 2 ^ 64 / mb
    let sticky := ma * 2 ^ 64 % mb != 0
    f32Round (f32XorSign a b) q (ea - eb - 64) sticky

/-- Go float32 addition `a + b` on bit patterns. -/
def f32Add (a b : Nat) : Nat :=
  if f32IsNaN a || f32IsNaN b then 0x7FC00000
  else if f32IsInf a && f32IsInf b then
    if f32Signbit a == f32Signbit b then a else 0x7FC00000
  else if f32IsInf a then a
  else if f32IsInf b then b
  else
    let (sa, ma, ea) := f32Decode a
    let (sb, mb, eb) := f32Decode b
    let emin := min ea eb
    let Ma : Int := (if sa == 1 then -1 else 1) * ma * 2 ^ (ea - emin).toNat
    let Mb : Int := (if sb == 1 then -1 else 1) * mb * 2 ^ (eb - emin).toNat
    let M := Ma + Mb
    if M == 0 then
      -- an exact zero sum is +0 under round-to-nearest, except (-0) + (-0) = -0
      if f32Signbit a && f32Signbit b then 0x80000000 else 0
    else f32Round (if M < 0 then 1 else 0) M.natAbs emin false

/-! ### The arithmetic engine from the arithmetic source file -/

/-- Models `addIEEE754(a, b, rounding)`.  Go mutates six component variables;
the states are threaded as tuples.  The Go subnormal normalization would
panic for a negative shift count (`leadingZeros10` can return a negative
value); the `Int.toNat` renderings below agree with Go on every
non-panicking execution. -/
def addIEEE754 (a b : Nat) (_rounding : RoundingMode) : Nat × Option ErrorCode :=
  let (signA0, expA0, mantA0) := extractComponents a
  let (signB0, expB0, mantB0) := extractComponents b
  -- Ensure the a-slot has the larger magnitude.
  let (signA, expA1, mantA1, signB, expB1, mantB1) :=
    if expA0 < expB0 || (expA0 == expB0 && mantA0 < mantB0) then
      (signB0, expB0, mantB0, signA0, expA0, mantA0)
    else (signA0, expA0, mantA0, signB0, expB0, mantB0)
  -- Normalize subnormals / set the implicit leading one.
  let (expA, mantA) :=
    if expA1 == 0 && mantA1 != 0 then
      let shift := leadingZeros10 mantA1
      (((1 - shift) % 65536).toNat, mantA1 * 2 ^ (shift + 1).toNat % 65536 % 1024)
    else if expA1 != 0 then (expA1, mantA1 + 1024)
    else (expA1, mantA1)
  let (expB, mantB2) :=
    if expB1 == 0 && mantB1 != 0 then
      let shift := leadingZeros10 mantB1
      (((1 - shift) % 65536).toNat, mantB1 * 2 ^ (shift + 1).toNat % 65536 % 1024)
    else if expB1 != 0 then (expB1, mantB1 + 1024)
    else (expB1, mantB1)
  let expDiff : Int := (expA : Int) - (expB : Int)
  if expDiff > 0 && expDiff ≥ 24 then
    -- b is too small to affect the result (the source returns parameter a).
    (a, none)
  else
    let mantB := if expDiff > 0 then mantB2 / 2 ^ expDiff.toNat else mantB2
    let (resultSign, resultMant0) :=
      if signA == signB then (signA, mantA + mantB)
      else if mantA ≥ mantB then (signA, mantA - mantB)
      else (signB, mantB - mantA)
    let resultExp0 : Int := expA
    if resultMant0 == 0 then (PositiveZero, none)
    else
      -- Normalize the result: on carry shift right, else shift the leading
      -- one up to bit 10 (`31 - bits.Len32` leading zeros).
      let (resultMant1, resultExp1) :=
        if resultMant0 ≥ 2048 then (resultMant0 / 2, resultExp0 + 1)
        else
          let leadingZeros : Int := 31 - (bitLen resultMant0 : Int)
          let shift := leadingZeros - 20
          if leadingZeros > 0 && shift > 0 then
            (resultMant0 * 2 ^ shift.toNat, resultExp0 - shift)
          else (resultMant0, resultExp0)
      if resultExp1 ≥ 31 then
        if resultSign != 0 then (NegativeInfinity, none) else (PositiveInfinity, none)
      else if resultExp1 ≤ 0 then
        let shift := 1 - resultExp1
        if shift ≥ 24 then
          if resultSign != 0 then (NegativeZero, none) else (PositiveZero, none)
        else (packComponents resultSign 0 (resultMant1 / 2 ^ shift.toNat % 65536), none)
      else
        (packComponents resultSign (resultExp1 % 65536).toNat (resultMant1 % 1024 % 65536), none)

/-- Models `mulIEEE754`: multiply via float32 and narrow with `ModeIEEE`. -/
def mulIEEE754 (a b : Nat) (rounding : RoundingMode) : Nat × Option ErrorCode :=
  toFloat16WithMode (f32Mul (toFloat32bits a) (toFloat32bits b)) .ieee rounding

/-- Models `divIEEE754`: divide via float32 and narrow with `ModeExact`. -/
def divIEEE754 (a b : Nat) (rounding : RoundingMode) : Nat × Option ErrorCode :=
  toFloat16WithMode (f32Div (toFloat32bits a) (toFloat32bits b)) .exact rounding

/-- Models `AddWithMode(a, b, mode, rounding)`. -/
def addWithMode (a b : Nat) (mode : ArithmeticMode) (rounding : RoundingMode) :
    Nat × Option ErrorCode :=
  if isZero a then (b, none)
  else if isZero b then (a, none)
  else if isNaN a || isNaN b then
    if mode == .exact then (0, some .nan) else (QuietNaN, none)
  else if isInf a 0 || isInf b 0 then
    if isInf a 1 && isInf b (-1) then
      if mode == .exact then (0, some .invalidOperation) else (QuietNaN, none)
    else if isInf a (-1) && isInf b 1 then
      if mode == .exact then (0, some .invalidOperation) else (QuietNaN, none)
    else if isInf a 0 then (a, none)
    else (b, none)
  else if mode == .fast then
    toFloat16WithMode (f32Add (toFloat32bits a) (toFloat32bits b)) .ieee rounding
  else addIEEE754 a b rounding

/-- Models `MulWithMode(a, b, mode, rounding)`. -/
def mulWithMode (a b : Nat) (mode : ArithmeticMode) (rounding : RoundingMode) :
    Nat × Option ErrorCode :=
  let aIsZero := isZero a
  let bIsInf := isInf b 0
  if (aIsZero && bIsInf) || (isInf a 0 && isZero b) then
    if mode == .exact then (0, some .invalidOperation) else (QuietNaN, none)
  else if aIsZero || isZero b then
    if signbit a != signbit b then (NegativeZero, none) else (PositiveZero, none)
  else if isNaN a || isNaN b then
    if mode == .exact then (0, some .nan) else (QuietNaN, none)
  else if isInf a 0 || isInf b 0 then
    if (isInf a 0 && isZero b) || (isZero a && isInf b 0) then
      if mode == .exact then (0, some .invalidOperation) else (QuietNaN, none)
    else if signbit a != signbit b then (NegativeInfinity, none)
    else (PositiveInfinity, none)
  else if mode == .fast then
    toFloat16WithMode (f32Mul (toFloat32bits a) (toFloat32bits b)) .ieee rounding
  else mulIEEE754 a b rounding

/-- Models `DivWithMode(a, b, mode, rounding)`. -/
def divWithMode (a b : Nat) (mode : ArithmeticMode) (rounding : RoundingMode) :
    Nat × Option ErrorCode :=
  if isZero b then
    if isZero a then
      if mode == .exact then (0, some .invalidOperation) else (QuietNaN, none)
    else if mode == .exact then (0, some .divisionByZero)
    else if signbit a != signbit b then (NegativeInfinity, none)
    else (PositiveInfinity, none)
  else if isZero a then
    if signbit a != signbit b then (NegativeZero, none) else (PositiveZero, none)
  else if isInf a 0 || isInf b 0 then
    if isInf a 0 && isInf b 0 then
      if mode == .exact then (0, some .invalidOperation) else (QuietNaN, none)
    else if isInf a 0 then
      if signbit a != signbit b then (NegativeInfinity, none) else (PositiveInfinity, none)
    else
      if signbit a != signbit b then (NegativeZero, none) else (PositiveZero, none)
  else if isNaN a || isNaN b then
    if mode == .exact then (0, some .nan) else (QuietNaN, none)
  else if isInf a 0 && isInf b 0 then
    if mode == .exact then (0, some .invalidOperation) else (QuietNaN, none)
  else if isInf a 0 then
    if signbit a != signbit b then (NegativeInfinity, none) else (PositiveInfinity, none)
  else if isInf b 0 then
    if signbit a != signbit b then (NegativeZero, none) else (PositiveZero, none)
  else if mode == .fast then
    toFloat16WithMode (f32Div (toFloat32bits a) (toFloat32bits b)) .ieee rounding
  else divIEEE754 a b rounding

/-! ### Value interpretation

The real value of a finite half or float32 bit pattern, scaled by 2^150 so
that every representable value becomes an integer.  The half table is the
data-model invariant of the specification (sign, 5-bit exponent with bias 15,
10-bit mantissa); the float32 layout is the IEEE 754 binary32 format used by
the conversion code. -/

/-- Real value times 2^150 of a finite half bit pattern: subnormals are
`±mant·2^-24` and normals `±(1024+mant)·2^(exp-25)`. -/
def halfScaledValue (f : Nat) : Int :=
  let sign : Int := if signbit f then -1 else 1
  let exp := f / 1024 % 32
  let mant : Int := f % 1024
  if exp == 0 then sign * mant * 2 ^ 126
  else sign * (1024 + mant) * 2 ^ (exp + 125)

/-- Real value times 2^150 of a finite float32 bit pattern. -/
def f32ScaledValue (bits : Nat) : Int :=
  let (s, m, e) := f32Decode bits
  (if s == 1 then -1 else 1) * m * 2 ^ (e + 150).toNat

end Float16V

namespace Float16V

/-! ### Helper lemmas -/

/-- A NaN pattern is neither a zero nor an infinity. -/
theorem isNaN_not_zero_not_inf (n : Nat) (h : isNaN n = true) :
    isZero n = false ∧ isInf n 0 = false := by
  simp only [isNaN, Bool.and_eq_true, beq_iff_eq, bne_iff_ne, ne_eq] at h
  have h1 : n % 32768 = n / 1024 % 32 * 1024 + n % 1024 := by omega
  constructor
  · simp only [isZero, beq_eq_false_iff_ne, ne_eq]
    omega
  · have hne : n % 32768 ≠ 31744 := by omega
    simp [isInf, hne]

/-- A zero pattern is neither an infinity nor a NaN. -/
theorem isZero_not_inf_not_nan (z : Nat) (h : isZero z = true) :
    isInf z 0 = false ∧ isNaN z = false := by
  simp only [isZero, beq_iff_eq] at h
  have h1 : z % 32768 = z / 1024 % 32 * 1024 + z % 1024 := by omega
  constructor
  · have hne : z % 32768 ≠ 31744 := by omega
    simp [isInf, hne]
  · simp only [isNaN, Bool.and_eq_true, beq_iff_eq, bne_iff_ne, ne_eq, not_and]
    simp only [Bool.and_eq_false_imp, beq_iff_eq, bne_eq_false_iff_eq]
    omega

/-! ### Claim theorems -/

/-- C10: Neg is a bit-exact involution that touches only the sign bit — for
every Float16 f (including NaN, infinity and zero), Neg(Neg(f)) = f,
Signbit(Neg(f)) differs from Signbit(f), and Abs(Neg(f)) = Abs(f). -/
theorem C10_neg_involution_sign_only (f : Nat) (hf : f < 65536) :
    neg16 (neg16 f) = f ∧ signbit (neg16 f) ≠ signbit f ∧ abs16 (neg16 f) = abs16 f := by
  refine ⟨?_, ?_, ?_⟩
  · simp only [neg16]; omega
  · simp only [neg16, signbit, ne_eq]
    have h2 : (f + 32768) % 65536 / 32768 % 2 = 1 - f / 32768 % 2 := by omega
    have h3 : f / 32768 % 2 = 0 ∨ f / 32768 % 2 = 1 := by omega
    rcases h3 with h3 | h3 <;> simp [h2, h3]
  · simp only [neg16, abs16]; omega

/-- Witness for C10 at the concrete pattern 0xFC00 (negative infinity). -/
theorem C10_neg_involution_sign_only_witness :
    (0xFC00 : Nat) < 65536 ∧
    (neg16 (neg16 0xFC00) = 0xFC00 ∧ signbit (neg16 0xFC00) ≠ signbit 0xFC00 ∧
      abs16 (neg16 0xFC00) = abs16 0xFC00) :=
  ⟨by decide, C10_neg_involution_sign_only 0xFC00 (by decide)⟩

/-- C9 (implicit): in multiplication the zero shortcut precedes the NaN
check — for every NaN n, every zero z, every arithmetic mode and rounding
mode, MulWithMode(n, z) and MulWithMode(z, n) return the signed zero whose
sign bit is the xor of the operand sign bits, with no error, even in Exact
mode. -/
theorem C9_mul_zero_shortcut_beats_nan (n z : Nat) (mode : ArithmeticMode)
    (r : RoundingMode) (_hn16 : n < 65536) (_hz16 : z < 65536)
    (hn : isNaN n = true) (hz : isZero z = true) :
    mulWithMode n z mode r =
      ((if signbit n != signbit z then NegativeZero else PositiveZero), none) ∧
    mulWithMode z n mode r =
      ((if signbit z != signbit n then NegativeZero else PositiveZero), none) := by
  obtain ⟨hnz, hninf⟩ := isNaN_not_zero_not_inf n hn
  obtain ⟨hzinf, _⟩ := isZero_not_inf_not_nan z hz
  constructor <;> simp [mulWithMode, hnz, hninf, hzinf, hz] <;> split <;> rfl

/-- Witness for C9 at n = 0x7E00 (quiet NaN), z = 0x8000 (negative zero),
Exact mode, nearest-even rounding. -/
theorem C9_mul_zero_shortcut_beats_nan_witness :
    isNaN 0x7E00 = true ∧ isZero 0x8000 = true ∧
    mulWithMode 0x7E00 0x8000 .exact .nearestEven =
      ((if signbit 0x7E00 != signbit 0x8000 then NegativeZero else PositiveZero), none) :=
  ⟨by decide, by decide,
    (C9_mul_zero_shortcut_beats_nan 0x7E00 0x8000 .exact .nearestEven
      (by decide) (by decide) (by decide) (by decide)).1⟩

/-- C7: division-by-zero special cases — for every finite nonzero a and zero
b, DivWithMode under IEEE and Fast modes returns the infinity whose sign is
the xor of the operand signs, Exact mode returns a DivisionByZero error;
zero divided by zero gives a quiet NaN under IEEE and Fast, and
DivWithMode(0x0000, 0x0000, Exact, r) an InvalidOperation error. -/
theorem C7_div_by_zero_cases (a b : Nat) (r : RoundingMode) (_ha16 : a < 65536)
    (_hfin : isFinite a = true) (haz : isZero a = false) (hbz : isZero b = true) :
    divWithMode a b .ieee r =
      ((if signbit a != signbit b then NegativeInfinity else PositiveInfinity), none) ∧
    divWithMode a b .fast r =
      ((if signbit a != signbit b then NegativeInfinity else PositiveInfinity), none) ∧
    divWithMode a b .exact r = (0, some .divisionByZero) ∧
    (∀ z w : Nat, isZero z = true → isZero w = true →
      divWithMode z w .ieee r = (QuietNaN, none) ∧
      divWithMode z w .fast r = (QuietNaN, none)) ∧
    divWithMode 0x0000 0x0000 .exact r = (0, some .invalidOperation) := by
  simp only [isZero, beq_iff_eq, beq_eq_false_iff_ne, ne_eq] at haz hbz
  refine ⟨?_, ?_, ?_, fun z w hz hw => ?_, ?_⟩
  · simp [divWithMode, isZero, haz, hbz]; split <;> rfl
  · simp [divWithMode, isZero, haz, hbz]; split <;> rfl
  · simp [divWithMode, isZero, haz, hbz]
  · simp only [isZero, beq_iff_eq] at hz hw
    constructor <;> simp [divWithMode, isZero, hz, hw]
  · simp [divWithMode, isZero]

/-- Witness for C7 at a = 0x3C00 (1.0), b = 0x8000 (negative zero),
nearest-even rounding. -/
theorem C7_div_by_zero_cases_witness :
    isFinite 0x3C00 = true ∧ isZero 0x3C00 = false ∧ isZero 0x8000 = true ∧
    divWithMode 0x3C00 0x8000 .exact .nearestEven = (0, some .divisionByZero) :=
  ⟨by decide, by decide, by decide,
    (C7_div_by_zero_cases 0x3C00 0x8000 .nearestEven (by decide) (by decide)
      (by decide) (by decide)).2.2.1⟩

/-- C4, counterexample: AddWithMode(+0, NaN) in Exact mode returns the NaN
with a nil error, because the zero shortcut precedes the NaN check — the
claim that a NaN operand yields an error in Exact mode even when the other
operand is a zero is false. -/
theorem C4_counterexample_zero_plus_nan_exact :
    isZero 0x0000 = true ∧ isNaN 0x7E00 = true ∧
    addWithMode 0x0000 0x7E00 .exact .nearestEven = (0x7E00, none) := by decide

/-- C4, amended: for every pair with a NaN operand, AddWithMode returns a
quiet NaN in IEEE and Fast modes and a NaNOperand error in Exact mode
provided neither operand is a zero; when an operand is a zero, the zero
shortcut returns the other operand — the NaN itself — with a nil error in
every mode. -/
theorem C4_add_nan_dominates_unless_zero (a b : Nat) (mode : ArithmeticMode)
    (r : RoundingMode) (_ha16 : a < 65536) (_hb16 : b < 65536)
    (hnan : isNaN a = true ∨ isNaN b = true) :
    (isZero a = false → isZero b = false →
      ((mode = .ieee ∨ mode = .fast) → addWithMode a b mode r = (QuietNaN, none)) ∧
      (mode = .exact → addWithMode a b mode r = (0, some .nan))) ∧
    (isZero a = true → addWithMode a b mode r = (b, none) ∧ isNaN b = true) ∧
    (isZero a = false → isZero b = true → addWithMode a b mode r = (a, none) ∧ isNaN a = true) := by
  have hor : ∀ (h1 : isZero a = false) (h2 : isZero b = false), (isNaN a || isNaN b) = true := by
    intro _ _
    rcases hnan with h | h <;> simp [h]
  refine ⟨fun haz hbz => ⟨fun hm => ?_, fun hm => ?_⟩, fun haz => ⟨?_, ?_⟩, fun haz hbz => ⟨?_, ?_⟩⟩
  · rcases hm with rfl | rfl <;> simp [addWithMode, haz, hbz, hor haz hbz]
  · subst hm; simp [addWithMode, haz, hbz, hor haz hbz]
  · simp [addWithMode, haz]
  · rcases hnan with h | h
    · exact absurd (isZero_not_inf_not_nan a haz).2 (by simp [h])
    · exact h
  · simp [addWithMode, haz, hbz]
  · rcases hnan with h | h
    · exact h
    · exact absurd (isZero_not_inf_not_nan b hbz).2 (by simp [h])

/-- Witness for the amended C4 at a = 0x7E00 (quiet NaN), b = 0x3C00 (1.0),
Exact mode: neither operand is zero, so the NaN check fires and an error is
returned. -/
theorem C4_add_nan_dominates_unless_zero_witness :
    (isNaN 0x7E00 = true ∨ isNaN 0x3C00 = true) ∧
    (isZero 0x7E00 = false → isZero 0x3C00 = false →
      ((ArithmeticMode.exact = .ieee ∨ ArithmeticMode.exact = .fast) →
        addWithMode 0x7E00 0x3C00 .exact .nearestEven = (QuietNaN, none)) ∧
      (ArithmeticMode.exact = .exact →
        addWithMode 0x7E00 0x3C00 .exact .nearestEven = (0, some .nan))) :=
  ⟨Or.inl (by decide),
    (C4_add_nan_dominates_unless_zero 0x7E00 0x3C00 .exact .nearestEven
      (by decide) (by decide) (Or.inl (by decide))).1⟩

/-- C8: for every 16-bit pattern, Class() is consistent with the
exponent/mantissa table and every boolean predicate agrees with it:
IsNaN iff signaling or quiet NaN, IsInf(0) iff an infinity, IsZero iff a
signed zero, IsSubnormal iff a signed subnormal, IsNormal iff a signed
normal, and IsFinite iff the class is neither a NaN nor an infinity. -/
theorem C8_class_and_predicates_agree (f : Nat) (_hf : f < 65536) :
    (isNaN f = true ↔ (class16 f = .signalingNaN ∨ class16 f = .quietNaN)) ∧
    (isInf f 0 = true ↔ (class16 f = .positiveInfinity ∨ class16 f = .negativeInfinity)) ∧
    (isZero f = true ↔ (class16 f = .positiveZero ∨ class16 f = .negativeZero)) ∧
    (isSubnormal f = true ↔ (class16 f = .positiveSubnormal ∨ class16 f = .negativeSubnormal)) ∧
    (isNormal f = true ↔ (class16 f = .positiveNormal ∨ class16 f = .negativeNormal)) ∧
    (isFinite f = true ↔
      ¬(class16 f = .signalingNaN ∨ class16 f = .quietNaN ∨
        class16 f = .positiveInfinity ∨ class16 f = .negativeInfinity)) := by
  have hid : f % 32768 = f / 1024 % 32 * 1024 + f % 1024 := by omega
  cases hn : isNaN f with
  | true =>
    have hprops : f / 1024 % 32 = 31 ∧ f % 1024 ≠ 0 := by
      simpa [isNaN] using hn
    obtain ⟨hnz, hninf⟩ := isNaN_not_zero_not_inf f hn
    have hsub : isSubnormal f = false := by
      simp only [isSubnormal, Bool.and_eq_false_imp, beq_iff_eq, bne_eq_false_iff_eq]
      omega
    have hnorm : isNormal f = false := by
      simp only [isNormal, Bool.and_eq_false_imp, bne_eq_false_iff_eq]
      intro h; omega
    have hfin : isFinite f = false := by
      simp only [isFinite, bne_eq_false_iff_eq]
      omega
    by_cases hq : f / 512 % 2 = 0 <;>
      simp [class16, hn, hq, hnz, hninf, hsub, hnorm, hfin]
  | false =>
    cases hi : isInf f 0 with
    | true =>
      have hiProp : f % 32768 = 31744 := by
        by_contra hne
        simp [isInf, hne] at hi
      have he : f / 1024 % 32 = 31 ∧ f % 1024 = 0 := by omega
      have hz : isZero f = false := by
        simp only [isZero, beq_eq_false_iff_ne, ne_eq]; omega
      have hsub : isSubnormal f = false := by
        simp only [isSubnormal, Bool.and_eq_false_imp, beq_iff_eq, bne_eq_false_iff_eq]
        omega
      have hnorm : isNormal f = false := by
        simp only [isNormal, Bool.and_eq_false_imp, bne_iff_ne, ne_eq, bne_eq_false_iff_eq]
        intro h; omega
      have hfin : isFinite f = false := by
        simp only [isFinite, bne_eq_false_iff_eq]
        omega
      by_cases hs : signbit f = true <;>
        simp [class16, hn, hi, hs, hz, hsub, hnorm, hfin]
    | false =>
      have hiProp : f % 32768 ≠ 31744 := by
        intro heq
        simp [isInf, heq] at hi
      cases hz : isZero f with
      | true =>
        have hzProp : f % 32768 = 0 := by simpa [isZero] using hz
        have he : f / 1024 % 32 = 0 ∧ f % 1024 = 0 := by omega
        have hsub : isSubnormal f = false := by
          simp only [isSubnormal, Bool.and_eq_false_imp, beq_iff_eq, bne_eq_false_iff_eq]
          omega
        have hnorm : isNormal f = false := by
          simp only [isNormal, Bool.and_eq_false_imp, bne_iff_ne, ne_eq, bne_eq_false_iff_eq]
          intro h; omega
        have hfin : isFinite f = true := by
          simp only [isFinite, bne_iff_ne, ne_eq]; omega
        by_cases hs : signbit f = true <;>
          simp [class16, hn, hi, hs, hz, hsub, hnorm, hfin]
      | false =>
        have hzProp : f % 32768 ≠ 0 := by
          intro heq
          simp [isZero, heq] at hz
        cases hsub : isSubnormal f with
        | true =>
          have hsubProp : f / 1024 % 32 = 0 ∧ f % 1024 ≠ 0 := by
            simpa [isSubnormal] using hsub
          have hnorm : isNormal f = false := by
            simp only [isNormal, Bool.and_eq_false_imp, bne_iff_ne, ne_eq, bne_eq_false_iff_eq]
            intro h; omega
          have hfin : isFinite f = true := by
            simp only [isFinite, bne_iff_ne, ne_eq]; omega
          by_cases hs : signbit f = true <;>
            simp [class16, hn, hi, hs, hz, hsub, hnorm, hfin]
        | false =>
          have hnProp : ¬(f / 1024 % 32 = 31 ∧ f % 1024 ≠ 0) := by
            intro h
            simp [isNaN, h.1, h.2] at hn
          have hsubProp : ¬(f / 1024 % 32 = 0 ∧ f % 1024 ≠ 0) := by
            intro h
            simp [isSubnormal, h.1, h.2] at hsub
          have hnorm : isNormal f = true := by
            simp only [isNormal, Bool.and_eq_true, bne_iff_ne, ne_eq]
            omega
          have hfin : isFinite f = true := by
            simp only [isFinite, bne_iff_ne, ne_eq]; omega
          by_cases hs : signbit f = true <;>
            simp [class16, hn, hi, hs, hz, hsub, hnorm, hfin]

/-- Witness for C8 at the signaling NaN pattern 0x7D00. -/
theorem C8_class_and_predicates_agree_witness :
    (0x7D00 : Nat) < 65536 ∧
    (isNaN 0x7D00 = true ↔
      (class16 0x7D00 = .signalingNaN ∨ class16 0x7D00 = .quietNaN)) :=
  ⟨by decide, (C8_class_and_predicates_agree 0x7D00 (by decide)).1⟩

/-- C1, failing input: the round trip narrow(widen(v), IEEE, nearest-even)
does not return v for the subnormal v = 0x0001 — the widening produces the
bit pattern 0x3A020000 (about 4.96e-4 instead of 2^-24) and the narrowing
returns 0x1010, so the claimed identity fails on a non-NaN input. -/
theorem C1_roundtrip_fails_on_smallest_subnormal :
    isNaN 0x0001 = false ∧
    toFloat32bits 0x0001 = 0x3A020000 ∧
    toFloat16WithMode (toFloat32bits 0x0001) .ieee .nearestEven = (0x1010, none) ∧
    (0x1010 : Nat) ≠ 0x0001 := by decide

set_option maxRecDepth 8000 in
/-- C2, failing input: widening a subnormal is not exact — ToFloat32
flushes the largest subnormal 0x03FF to +0.0 and maps 0x0001 to a value
(scaled by 2^150) different from its real value mant·2^126, instead of
using the float32 exponent 127 − 15 + 1 − shift. -/
theorem C2_widening_not_exact_on_subnormals :
    isSubnormal 0x03FF = true ∧ isSubnormal 0x0001 = true ∧
    toFloat32bits 0x03FF = 0 ∧
    f32ScaledValue (toFloat32bits 0x03FF) ≠ halfScaledValue 0x03FF ∧
    f32ScaledValue (toFloat32bits 0x0001) ≠ halfScaledValue 0x0001 := by decide

/-- C3, failing input: in IEEE arithmetic mode, DivWithMode(0x7BFF, 0x3800)
(65504 / 0.5, whose exact quotient 131008 exceeds the largest finite half
value) returns the zero sentinel together with an Overflow error, because
divIEEE754 narrows through ModeExact — not a nil error and not a signed
infinity as claimed. -/
theorem C3_div_ieee_mode_errors_on_overflow :
    isFinite 0x7BFF = true ∧ isFinite 0x3800 = true ∧
    isZero 0x7BFF = false ∧ isZero 0x3800 = false ∧
    divWithMode 0x7BFF 0x3800 .ieee .nearestEven = (0, some .overflow) := by decide

/-- C5, failing input: addition under IEEE mode is not commutative on the
signed zeros — Add(+0, −0) returns −0 while Add(−0, +0) returns +0, because
the zero shortcut returns the second operand. -/
theorem C5_add_not_commutative_on_signed_zeros :
    isNaN 0x0000 = false ∧ isNaN 0x8000 = false ∧
    addWithMode 0x0000 0x8000 .ieee .nearestEven = (0x8000, none) ∧
    addWithMode 0x8000 0x0000 .ieee .nearestEven = (0x0000, none) ∧
    (0x8000 : Nat) ≠ 0x0000 := by decide

set_option maxRecDepth 8000 in
/-- C6, failing input: toward-positive-infinity narrowing of the negative
float32 −(1+2^-23) (bits 0xBF800001, in the half normal range and not
exactly representable) returns 0xBC01 — the magnitude rounded up — whose
value is strictly below the operand, not the truncation 0xBC00 that the
claim requires (the result should satisfy result ≥ x). -/
theorem C6_toward_positive_rounds_negative_magnitude_up :
    f32Signbit 0xBF800001 = true ∧ f32IsNaN 0xBF800001 = false ∧
    f32IsInf 0xBF800001 = false ∧
    toFloat16WithMode 0xBF800001 .ieee .towardPositive = (0xBC01, none) ∧
    (0xBC01 : Nat) ≠ 0xBC00 ∧
    halfScaledValue 0xBC01 < f32ScaledValue 0xBF800001 := by decide

end Float16V
